import Mathlib

/-!
A verification development for the Wellcome Archivematica storage-service
backend.  The Python sources under `storage_service/locations/models/` are
shallowly embedded: pure string manipulation becomes Lean functions on
`String`/`List Char`, filesystem and network effects become explicit oracle
parameters, and exceptions become `Except`/`Option` results.  Each claim about
the specification is then settled as a theorem about these definitions.
-/

namespace StorageSpec

/-! ## String primitives modelling the Python standard library -/

/-- Helper for `pySplit`: walks the character list accumulating the current
token (in reverse). -/
def pySplitAux (sep : Char) : List Char → List Char → List String
  | [], acc => [String.mk acc.reverse]
  | c :: cs, acc =>
    if c = sep then String.mk acc.reverse :: pySplitAux sep cs []
    else pySplitAux sep cs (c :: acc)

/-- Python `str.split(sep)` with a single-character separator, as used by
`ident.split("/")` in wellcome.py: `"".split("/") == [""]` and
`"AA/".split("/") == ["AA", ""]`. -/
def pySplit (sep : Char) (s : String) : List String :=
  pySplitAux sep s.toList []

/-- Element-wise longest common prefix of two token lists. -/
def commonPrefixPair : List String → List String → List String
  | a :: as, b :: bs => if a = b then a :: commonPrefixPair as bs else []
  | _, _ => []

/-- Models Python `os.path.commonprefix` applied to a list of token lists: the
longest common prefix of all of them.  An empty input list yields `[]`
(matching the falsy empty string the Python function returns there). -/
def commonPrefixAll : List (List String) → List String
  | [] => []
  | x :: xs => xs.foldl commonPrefixPair x

/-- Failures arising inside `get_common_prefix` (wellcome.py lines 522-546):
`noCommonPrefix` models the `NoCommonPrefix` exception; `indexError` models an
`IndexError` escaping from the `common_components[-1]` subscript once the
trailing-empty-token loop has emptied the list. -/
inductive GCPError where
  | noCommonPrefix
  | indexError
deriving DecidableEq, Repr

/-- The loop `while common_components[-1] == "": common_components =
common_components[:-1]`, which re-evaluates `[-1]` after each drop: `none`
models the `IndexError` raised when the list has become empty.  Implemented on
the reversed list so the recursion is structural. -/
def dropTrailingEmptyRev : List String → Option (List String)
  | [] => none
  | x :: rest => if x = "" then dropTrailingEmptyRev rest else some (x :: rest)

def dropTrailingEmpty (l : List String) : Option (List String) :=
  (dropTrailingEmptyRev l.reverse).map List.reverse

/-- Embedding of `get_common_prefix` (wellcome.py lines 526-546): split every
identifier on `/`, take the element-wise common prefix of the token lists,
raise `NoCommonPrefix` if it is empty, then drop trailing empty tokens (the
subscript in that loop can raise `IndexError`) and join with `/`. -/
def get_common_prefix (identifiers : List String) : Except GCPError String :=
  let split_identifiers := identifiers.map (pySplit '/')
  let common_components := commonPrefixAll split_identifiers
  if common_components = [] then .error .noCommonPrefix
  else
    match dropTrailingEmpty common_components with
    | none => .error .indexError
    | some l => .ok (String.intercalate "/" l)

instance {ε α : Type} [DecidableEq ε] [DecidableEq α] : DecidableEq (Except ε α) := fun a b =>
  match a, b with
  | .ok x, .ok y => if h : x = y then .isTrue (by rw [h]) else .isFalse (by simp [h])
  | .error x, .error y => if h : x = y then .isTrue (by rw [h]) else .isFalse (by simp [h])
  | .ok _, .error _ => .isFalse (by simp)
  | .error _, .ok _ => .isFalse (by simp)

/-! ## More string primitives from the Python standard library -/

/-- Python `str.endswith(t)`, as a list-suffix test. -/
def strEndsWith (s t : String) : Bool :=
  t.toList.isSuffixOf s.toList

/-- Python `str.startswith(t)`, as a list-prefix test. -/
def strStartsWith (s t : String) : Bool :=
  t.toList.isPrefixOf s.toList

/-- Python `os.path.basename`: the part of the path after the last `/`. -/
def basename (p : String) : String :=
  String.mk (p.toList.reverse.takeWhile (· != '/')).reverse

/-- Python dict assignment `d[k] = v` on an insertion-ordered association
list: replaces the value in place when the key is present, else appends. -/
def dset {α : Type} : List (String × α) → String → α → List (String × α)
  | [], k, v => [(k, v)]
  | (k', v') :: rest, k, v =>
    if k' = k then (k, v) :: rest else (k', v') :: dset rest k v

/-! ## The package data model and `handle_ingest` -/

/-- Package lifecycle statuses used by the Wellcome backend.  Modelled from the
spec: the `Package` model class is not among the sources, only referenced;
spec §3 gives the lifecycle enum (STAGING, UPLOADED, FAIL; other pipeline
states are out of scope). -/
inductive PStatus where
  | STAGING
  | UPLOADED
  | FAIL
deriving DecidableEq, Repr

/-- Modelled from the spec: the `Package` record (spec §3) with exactly the
fields the embedded code reads and writes — UUID, current path, lifecycle
status, the `misc_attributes` metadata dictionary, and the owning location's
relative path (used by `move_from_storage_service` as the space id). -/
structure Package where
  uuid : String
  current_path : String
  status : PStatus
  misc_attributes : List (String × String)
  location_relative_path : String
deriving DecidableEq, Repr

/-- The ingest body shape consumed by `handle_ingest`: `status.id`,
`callback.status.id` and `bag.info.version` — the only fields the embedded
code reads (the `events` list is only logged and carries no state effect). -/
structure IngestBody where
  status : String
  callback_status : String
  bag_version : String
deriving DecidableEq, Repr

/-- Embedding of `handle_ingest` (wellcome.py lines 43-69): on `succeeded`,
set the package UPLOADED, strip the directory context from `current_path`
with `os.path.basename`, and record the remote version under
`misc_attributes["wellcome.version"]`; on `failed`, set FAIL; any other
remote status is logged and leaves the package unchanged.  The package's
current status is never consulted. -/
def handle_ingest (ingest : IngestBody) (package : Package) : Package :=
  if ingest.status = "succeeded" then
    { package with
        status := .UPLOADED,
        current_path := basename package.current_path,
        misc_attributes :=
          dset package.misc_attributes "wellcome.version" ingest.bag_version }
  else if ingest.status = "failed" then
    { package with status := .FAIL }
  else
    package

/-- The accession-number space tagging inside `get_wellcome_identifier`
(wellcome.py lines 222-223): append `"-accessions"` unless the space already
ends with it. -/
def tag_accessions (space : String) : String :=
  if strEndsWith space "-accessions" then space else space ++ "-accessions"

/-- A string ends in exactly one `"-accessions"` suffix: it ends with the
suffix, and what precedes that final suffix does not itself end with it
(`"-accessions"` is 11 characters long). -/
def endsInOneAccessionsSuffix (s : String) : Bool :=
  strEndsWith s "-accessions" &&
    ! strEndsWith (String.mk (s.toList.take (s.toList.length - 11))) "-accessions"

/-! ## The ingest-type decision -/

/-- Modelled from the spec: the remote `get_bag` result (spec §6) — only its
presence matters to the ingest-type decision.  `none` models the `BagNotFound`
condition the remote client signals. -/
structure BagRecord where
  version : String
deriving DecidableEq, Repr

/-- The ingest-type decision in `move_from_storage_service` (wellcome.py lines
426-439): `create` when the resolved external identifier equals the package
UUID (no remote lookup is made in that branch); otherwise probe `get_bag` for
the {space, identifier} pair — `BagNotFound` gives `create`, a found prior bag
gives `update`. -/
def determine_ingest_type (external_identifier package_uuid : String)
    (bag_lookup : Option BagRecord) : String :=
  if external_identifier = package_uuid then "create"
  else
    match bag_lookup with
    | none => "create"
    | some _ => "update"

/-! ## The S3 backend's browse -/

/-- Python `str.lstrip("/")`. -/
def lstripSlash (s : String) : String :=
  String.mk (s.toList.dropWhile (· == '/'))

/-- Python `str.rstrip("/")`. -/
def rstripSlash (s : String) : String :=
  String.mk (s.toList.reverse.dropWhile (· == '/')).reverse

/-- Python `str.strip("/")` (both ends), as in `relative_path.strip(os.sep)`. -/
def stripSlash (s : String) : String :=
  rstripSlash (lstripSlash s)

/-- Python `s.replace(old, new, 1)` on character lists: replace the first
(leftmost) occurrence of `old`, if any. -/
def replaceFirst : List Char → List Char → List Char → List Char
  | [], pat, rep => if pat.isPrefixOf ([] : List Char) then rep else []
  | c :: cs, pat, rep =>
    if pat.isPrefixOf (c :: cs) then rep ++ (c :: cs).drop pat.length
    else c :: replaceFirst cs pat rep

/-- An object summary from the S3 listing: key, size, last-modified timestamp
and content hash. -/
structure S3Object where
  key : String
  size : Nat
  last_modified : String
  e_tag : String
deriving DecidableEq, Repr

/-- The per-entry property record `{"size", "timestamp", "e_tag"}`. -/
structure EntryProps where
  size : Nat
  timestamp : String
  e_tag : String
deriving DecidableEq, Repr

/-- The dictionary a browse returns: directories, entries, properties.
Python sets are modelled as insertion-ordered duplicate-free lists. -/
structure BrowseResult where
  directories : List String
  entries : List String
  properties : List (String × EntryProps)
deriving DecidableEq, Repr

/-- Python `set.add` on an insertion-ordered duplicate-free list. -/
def sadd (l : List String) (x : String) : List String :=
  if x ∈ l then l else l ++ [x]

/-- The prefix normalization in `S3.browse` (s3.py lines 133-146): strip
leading slashes; when the result is non-empty, strip trailing slashes and
append exactly one. -/
def s3_normalize (path : String) : String :=
  let p := lstripSlash path
  if p = "" then p else rstripSlash p ++ "/"

/-- Whether an object key is matched by the server-side listing filter
`objects.filter(Prefix=path)` after normalization. -/
def s3_matches (path key : String) : Bool :=
  (s3_normalize path).toList.isPrefixOf key.toList

/-- The per-object accumulation step of `S3.browse` (s3.py lines 154-168):
compute the prefix-relative key, then either record an immediate-child
directory (first segment, via `re.sub("/.*", "", ...)`, modelled as
take-up-to-first-slash) or a leaf entry with its properties. -/
def s3_browse_step (path : String) (acc : BrowseResult) (o : S3Object) : BrowseResult :=
  let relative_key :=
    String.mk ((replaceFirst o.key.toList (s3_normalize path).toList []).dropWhile (· == '/'))
  if relative_key.toList.contains '/' then
    let directory_name := String.mk (relative_key.toList.takeWhile (· != '/'))
    if directory_name = "" then acc
    else
      { acc with
          directories := sadd acc.directories directory_name,
          entries := sadd acc.entries directory_name }
  else
    { acc with
        entries := sadd acc.entries relative_key,
        properties := dset acc.properties relative_key ⟨o.size, o.last_modified, o.e_tag⟩ }

/-- Embedding of `S3.browse` (s3.py lines 129-174) over the bucket's object
list: normalize the prefix, keep the objects the listing matches, and fold the
partitioning step over them. -/
def s3_browse (objects : List S3Object) (path : String) : BrowseResult :=
  (objects.filter (fun o => s3_matches path o.key)).foldl (s3_browse_step path) ⟨[], [], []⟩

/-! ## The identifier resolver and its bag rewrite -/

/-- The `WellcomeIdentifier` value object (wellcome.py lines 91-108). -/
structure WellcomeIdentifier where
  space : String
  external_identifier : String
  internal_identifier : String
deriving DecidableEq, Repr

def WellcomeIdentifier.with_space (w : WellcomeIdentifier) (new_space : String) :
    WellcomeIdentifier :=
  { w with space := new_space }

/-- Outcome of a `tar -czf` recompression attempt: success writes the complete
archive to the temporary path; a failure (`CalledProcessError`) may still have
written a truncated file there, or nothing at all. -/
inductive TarResult where
  | success (full : String)
  | failure (written : Option String)
deriving DecidableEq, Repr

/-- The archive file slots touched by the bag rewrite: the content at
`src_path` and at `src_path + ".tmp"` (`none` = file absent). -/
structure FileState where
  src : Option String
  tmp : Option String
deriving DecidableEq, Repr

/-- The `OSError` raised by `os.rename` when the temporary file is absent. -/
inductive OsError where
  | fileNotFound
deriving DecidableEq, Repr

/-- Embedding of the recompress-and-replace tail of `get_wellcome_identifier`
(wellcome.py lines 269-287): run `tar -czvf src_path.tmp` inside a
`try/except CalledProcessError` whose handler only logs, then unconditionally
`os.rename(src_path + ".tmp", src_path)`. -/
def recompress_and_replace (st : FileState) (tar : TarResult) : Except OsError FileState :=
  let st1 :=
    match tar with
    | .success full => { st with tmp := some full }
    | .failure written =>
      match written with
      | some c => { st with tmp := some c }
      | none => st
  match st1.tmp with
  | none => .error .fileNotFound
  | some c => .ok { src := some c, tmp := none }

/-- Exceptions escaping `get_wellcome_identifier`:
`noWellcomeIdentifierFound` is the deliberate `NoWellcomeIdentifierFound`
(a `ValueError` telling the user to re-send the transfer);
`indexError` bubbles uncaught out of `get_common_prefix`;
`typeError` models `os.path.isfile(None)` when the transfer METS directory is
ambiguous; `calledProcessError` an uncaught bagit-rewrite subprocess failure;
`osError` an uncaught `os.rename` failure. -/
inductive GwiError where
  | noWellcomeIdentifierFound
  | indexError
  | typeError
  | calledProcessError
  | osError
deriving DecidableEq, Repr

/-- The filesystem/subprocess outcomes `get_wellcome_identifier` observes, as
oracle inputs: `tar_ok` — the `tar -xzf` extraction exit; `listdir` —
`os.listdir(temp_dir)`; `submission_docs` — `os.listdir` of the
submissionDocumentation directory (assumed to exist, as the code does);
`mets_isfile` / `transfer_mets_isfile` — the two `os.path.isfile` probes;
`dc_identifiers` / `accession_identifiers` — the values yielded by the two
METS scanners; `bagit_ok` — the bagit rewrite subprocess exit; `fs` and
`tar_recompress` — the archive file state and the recompression outcome. -/
structure GwiEnv where
  tar_ok : Bool
  listdir : List String
  submission_docs : List String
  mets_isfile : Bool
  transfer_mets_isfile : Bool
  dc_identifiers : List String
  accession_identifiers : List String
  bagit_ok : Bool
  fs : FileState
  tar_recompress : TarResult
deriving DecidableEq, Repr

/-- Embedding of `get_wellcome_identifier` (wellcome.py lines 139-288):
reject non-`.tar.gz` archives, failed extractions, and extractions without
exactly one top-level directory — each by raising
`NoWellcomeIdentifierFound`, not by falling back to the UUID; then require
the two METS files, resolve the external identifier from the Dublin-Core
identifiers' common prefix, falling back to the accession numbers' common
prefix (tagging the space with `-accessions`), else raise
`NoWellcomeIdentifierFound`; divert `archivematica-dev/TEST` identifiers to
the `testing` space; finally rewrite the bag and recompress it over the
original archive path. -/
def get_wellcome_identifier (src_path package_uuid space : String) (env : GwiEnv) :
    Except GwiError WellcomeIdentifier :=
  if strEndsWith src_path ".tar.gz" = false then .error .noWellcomeIdentifierFound
  else if env.tar_ok = false then .error .noWellcomeIdentifierFound
  else if env.listdir.length ≠ 1 then .error .noWellcomeIdentifierFound
  else if env.mets_isfile = false then .error .noWellcomeIdentifierFound
  else if env.submission_docs.length ≠ 1 then .error .typeError
  else if env.transfer_mets_isfile = false then .error .noWellcomeIdentifierFound
  else
    let resolved : Except GwiError WellcomeIdentifier :=
      match get_common_prefix env.dc_identifiers with
      | .ok ext => .ok ⟨space, ext, package_uuid⟩
      | .error .indexError => .error .indexError
      | .error .noCommonPrefix =>
        match get_common_prefix env.accession_identifiers with
        | .ok ext => .ok ⟨tag_accessions space, ext, package_uuid⟩
        | .error .indexError => .error .indexError
        | .error .noCommonPrefix => .error .noWellcomeIdentifierFound
    match resolved with
    | .error e => .error e
    | .ok wid =>
      let wid :=
        if strStartsWith wid.external_identifier "archivematica-dev/TEST" then
          wid.with_space "testing"
        else wid
      if env.bagit_ok = false then .error .calledProcessError
      else
        match recompress_and_replace env.fs env.tar_recompress with
        | .error _ => .error .osError
        | .ok _ => .ok wid

/-! ## The upload workflow -/

/-- Observable steps of `move_from_storage_service`, in execution order. -/
inductive Ev where
  | resolveIdentifier (src : String)
  | readSourceForUpload (src : String)
  | s3Upload (key : String)
  | remoteGetBag
  | createIngest (ingest_type : String)
deriving DecidableEq, Repr

/-- One round of the reconciliation loop: `external` is a status written by an
out-of-band callback during the inner refresh loop (if any), and `poll` the
ingest body a `get_ingest_from_location` fetch would return. -/
structure Round where
  external : Option PStatus
  poll : IngestBody
deriving DecidableEq, Repr

/-- The `while package.status == STAGING` reconciliation loop (wellcome.py
lines 485-507): refresh (an out-of-band callback may have updated the
status); if still STAGING, poll the ingest and either keep waiting (remote
callback status still `processing`) or apply the fetched body via
`handle_ingest`.  Result `none` models exhausting the supplied rounds with
the loop still running. -/
def reconcile (package : Package) : List Round → Option Package
  | [] => if package.status = .STAGING then none else some package
  | r :: rest =>
    if package.status ≠ .STAGING then some package
    else
      let p1 :=
        match r.external with
        | some st => { package with status := st }
        | none => package
      if p1.status ≠ .STAGING then some p1
      else if r.poll.callback_status = "processing" then reconcile p1 rest
      else reconcile (handle_ingest r.poll p1) rest

/-- Failures raised by `move_from_storage_service`: a propagated
identifier-resolution exception, or a `StorageException`. -/
inductive MoveError where
  | identifierError (e : GwiError)
  | storageException (msg : String)
deriving DecidableEq, Repr

/-- Oracle inputs for one `move_from_storage_service` run: the resolver's
environment, the S3 upload outcome, the `get_bag` probe outcome (`none` =
`BagNotFound`), and the reconciliation rounds. -/
structure MoveEnv where
  gwi : GwiEnv
  upload_ok : Bool
  bag_lookup : Option BagRecord
  rounds : List Round
deriving DecidableEq, Repr

/-- Embedding of `WellcomeStorageService.move_from_storage_service`
(wellcome.py lines 381-512): resolve the Wellcome identifier (which may
mutate the on-disk archive), then open and upload the source file to the
staging bucket, decide the ingest type, record the identifier attributes, set
the package STAGING, create the remote ingest, and run the reconciliation
loop; a FAIL outcome raises `StorageException`.  Returns the outcome (`ok
none` when the supplied rounds ran out with the loop still waiting) together
with the trace of observable steps in execution order. -/
def move_from_storage_service (src_path dest_path : String) (package : Package)
    (env : MoveEnv) : Except MoveError (Option Package) × List Ev :=
  let s3_temporary_path := lstripSlash dest_path
  let space := stripSlash package.location_relative_path
  match get_wellcome_identifier src_path package.uuid space env.gwi with
  | .error e => (.error (.identifierError e), [.resolveIdentifier src_path])
  | .ok wid =>
    if env.upload_ok = false then
      (.error (.storageException
          (src_path ++ " is not a file, may be a directory or not exist")),
        [.resolveIdentifier src_path, .readSourceForUpload src_path])
    else
      let ingest_type :=
        determine_ingest_type wid.external_identifier package.uuid env.bag_lookup
      let lookup_events : List Ev :=
        if wid.external_identifier = package.uuid then [] else [.remoteGetBag]
      let events :=
        [Ev.resolveIdentifier src_path, .readSourceForUpload src_path,
          .s3Upload s3_temporary_path] ++ lookup_events ++ [.createIngest ingest_type]
      let p :=
        { package with
            misc_attributes :=
              dset (dset package.misc_attributes "wellcome.external_identifier"
                wid.external_identifier) "wellcome.space" wid.space,
            status := .STAGING }
      (match reconcile p env.rounds with
       | none => .ok none
       | some pfinal =>
         if pfinal.status = .FAIL then
           .error (.storageException ("Failed to store package " ++ src_path))
         else .ok (some pfinal),
       events)

/-! ## The Space dispatcher -/

/-- The `Space` fields the dispatcher logic reads (space.py): configured base
path, staging path, and the protocol display name used in error messages. -/
structure SpaceRec where
  path : String
  staging_path : String
  protocol_display : String
deriving DecidableEq, Repr

/-- The `ValueError` raised by `Space.delete_path` when the target escapes the
Space's base path (space.py lines 192-194); the spec's taxonomy names this
containment failure `PathEscapeError`. -/
inductive DeleteError where
  | pathEscape (target base : String)
deriving DecidableEq, Repr

/-- The `NotImplementedError` raised by the move dispatchers when the child
space lacks the operation. -/
inductive MoveDispatchError where
  | notImplemented (msg : String)
deriving DecidableEq, Repr

/-- Python `os.path.isabs`. -/
def isabs (p : String) : Bool := strStartsWith p "/"

/-- Python `os.path.join(a, b)` for two components. -/
def pyJoin (a b : String) : String :=
  if isabs b then b
  else if a = "" then b
  else if strEndsWith a "/" then a ++ b
  else a ++ "/" ++ b

/-- `Space.browse` (space.py lines 146-182): try the child space's
implementation; on `AttributeError` (the child lacks the method, modelled as
`none`) fall back to the local-filesystem browse. -/
def SpaceRec.browse {β : Type} (child_browse : Option (String → β))
    (browse_local : String → β) (path : String) : β :=
  match child_browse with
  | some f => f path
  | none => browse_local path

/-- `Space.delete_path` (space.py lines 184-198): reject a target that does
not start with the Space's configured path, then try the child space's
implementation and fall back to the local delete on `AttributeError`. -/
def SpaceRec.delete_path {δ : Type} (self : SpaceRec)
    (child_delete : Option (String → δ)) (delete_local : String → δ)
    (target : String) : Except DeleteError δ :=
  if strStartsWith target self.path = false then .error (.pathEscape target self.path)
  else
    match child_delete with
    | some f => .ok (f target)
    | none => .ok (delete_local target)

/-- `Space.move_to_storage_service` (space.py lines 200-230): path mangling
(join source onto the Space path; force the destination relative and join it
onto the destination staging path), then delegate; `AttributeError` becomes
`NotImplementedError`. -/
def SpaceRec.move_to_storage_service {μ : Type} (self : SpaceRec)
    (child_move : Option (String → String → μ)) (dest_space : SpaceRec)
    (source_path destination_path : String) : Except MoveDispatchError μ :=
  let source_path := pyJoin self.path source_path
  let destination_path :=
    if isabs destination_path then lstripSlash destination_path else destination_path
  let destination_path := pyJoin dest_space.staging_path destination_path
  match child_move with
  | some f => .ok (f source_path destination_path)
  | none =>
    .error (.notImplemented
      (self.protocol_display ++ " space has not implemented move_to_storage_service"))

/-- `Space.move_from_storage_service` (space.py lines 240-289): the
`_move_from_path_mangling` pre-processing (force the staging path relative,
join onto the staging area, add a trailing separator when it is a directory,
join the destination onto the Space path), then delegate; `AttributeError`
becomes `NotImplementedError`. -/
def SpaceRec.move_from_storage_service {μ : Type} (self : SpaceRec)
    (child_move : Option (String → String → μ)) (staging_isdir : Bool)
    (source_path destination_path : String) : Except MoveDispatchError μ :=
  let source_path :=
    if isabs source_path then lstripSlash source_path else source_path
  let source_path := pyJoin self.staging_path source_path
  let source_path := if staging_isdir then source_path ++ "/" else source_path
  let destination_path := pyJoin self.path destination_path
  match child_move with
  | some f => .ok (f source_path destination_path)
  | none =>
    .error (.notImplemented
      (self.protocol_display ++ " space has not implemented move_from_storage_service"))

/-- `Space.update_package_status` (space.py lines 330-338): delegate to the
child space; on `AttributeError` return the pair `(None, message)`. -/
def SpaceRec.update_package_status {υ : Type} (self : SpaceRec)
    (child_update : Option (Package → Option υ × String)) (package : Package) :
    Option υ × String :=
  match child_update with
  | some f => f package
  | none =>
    (none, self.protocol_display ++ " space has not implemented update_package_status")

/-! ## Theorems -/

/-- The trailing-empty-token loop hits `IndexError` exactly when every token is
empty (the loop then empties the list and subscripts it). -/
theorem dropTrailingEmptyRev_eq_none (l : List String) :
    dropTrailingEmptyRev l = none ↔ ∀ t ∈ l, t = "" := by
  induction l with
  | nil => simp [dropTrailingEmptyRev]
  | cons x xs ih =>
    by_cases hx : x = ""
    · simp [dropTrailingEmptyRev, hx, ih]
    · simp [dropTrailingEmptyRev, hx]

theorem dropTrailingEmpty_eq_none (l : List String) :
    dropTrailingEmpty l = none ↔ ∀ t ∈ l, t = "" := by
  unfold dropTrailingEmpty
  cases hd : dropTrailingEmptyRev l.reverse with
  | none =>
    simp only [Option.map_none', true_iff]
    intro t ht
    exact (dropTrailingEmptyRev_eq_none l.reverse).mp hd t (List.mem_reverse.mpr ht)
  | some v =>
    simp only [Option.map_some']
    refine ⟨fun hcontra => Option.noConfusion hcontra, fun hall => ?_⟩
    have : dropTrailingEmptyRev l.reverse = none :=
      (dropTrailingEmptyRev_eq_none l.reverse).mpr fun t ht => hall t (List.mem_reverse.mp ht)
    rw [this] at hd
    exact Option.noConfusion hd

/-- C2 counterexample: on the input `[""]` the common token prefix is `[""]`
(non-empty, so `NoCommonPrefix` is not raised), the trailing-empty loop empties
the list, and the `[-1]` subscript raises `IndexError` — not the distinguished
`NoCommonPrefix` failure the claim promises for every empty result. -/
theorem get_common_prefix_indexError_on_all_empty :
    get_common_prefix [""] = .error .indexError ∧
      Except.error (α := String) GCPError.indexError ≠ .error .noCommonPrefix := by
  decide

/-- C2 (amended): the concrete common-prefix laws hold, and `NoCommonPrefix` is
raised exactly when the element-wise common prefix of the token lists is empty;
but when that common prefix is non-empty and consists solely of empty tokens
(e.g. input `[""]`), the function instead raises `IndexError`. -/
theorem get_common_prefix_characterization :
    get_common_prefix ["AA/1", "AA/2"] = .ok "AA" ∧
    get_common_prefix ["AA/1", "BB/2"] = .error .noCommonPrefix ∧
    get_common_prefix ["AA/1/x"] = .ok "AA/1/x" ∧
    (∀ ids : List String,
      get_common_prefix ids = .error .noCommonPrefix ↔
        commonPrefixAll (ids.map (pySplit '/')) = []) ∧
    (∀ ids : List String,
      get_common_prefix ids = .error .indexError ↔
        (commonPrefixAll (ids.map (pySplit '/')) ≠ [] ∧
          ∀ t ∈ commonPrefixAll (ids.map (pySplit '/')), t = "")) := by
  refine ⟨by decide, by decide, by decide, ?_, ?_⟩
  · intro ids
    unfold get_common_prefix
    by_cases h : commonPrefixAll (ids.map (pySplit '/')) = []
    · simp [h]
    · cases hd : dropTrailingEmpty (commonPrefixAll (ids.map (pySplit '/'))) <;>
        simp [h, hd]
  · intro ids
    unfold get_common_prefix
    by_cases h : commonPrefixAll (ids.map (pySplit '/')) = []
    · simp [h]
    · cases hd : dropTrailingEmpty (commonPrefixAll (ids.map (pySplit '/'))) with
      | none =>
        simp only [h, if_neg, hd]
        simp [h]
        exact (dropTrailingEmpty_eq_none _).mp hd
      | some v =>
        simp only [h, if_neg, hd]
        have : ¬ ∀ t ∈ commonPrefixAll (ids.map (pySplit '/')), t = "" := by
          intro hall
          rw [(dropTrailingEmpty_eq_none _).mpr hall] at hd
          exact Option.noConfusion hd
        simp [this]

theorem toList_append (s t : String) : (s ++ t).toList = s.toList ++ t.toList :=
  String.data_append s t

theorem toList_mk (l : List Char) : (String.mk l).toList = l := rfl

theorem mk_toList (s : String) : String.mk s.toList = s := rfl

theorem strEndsWith_append_self (s t : String) : strEndsWith (s ++ t) t = true := by
  unfold strEndsWith
  rw [toList_append, List.isSuffixOf_iff_suffix]
  exact List.suffix_append s.toList t.toList

theorem basename_idem (p : String) : basename (basename p) = basename p := by
  unfold basename
  rw [toList_mk, List.reverse_reverse, List.takeWhile_idem]

theorem dset_idem (m : List (String × String)) (k v : String) :
    dset (dset m k v) k v = dset m k v := by
  induction m with
  | nil => simp [dset]
  | cons hd tl ih =>
    obtain ⟨k', v'⟩ := hd
    by_cases h : k' = k
    · simp [dset, h]
    · simp [dset, h, ih]

/-- C1 counterexample: `handle_ingest` does not check the current package
status before transitioning — applying a `succeeded` ingest body carrying
version `v2` to a package already in UPLOADED status (recorded version `v1`,
path still carrying directory context) changes the package, so applying a
`succeeded` body to an UPLOADED package is not in general a no-op. -/
theorem handle_ingest_not_noop_on_uploaded :
    handle_ingest
        { status := "succeeded", callback_status := "succeeded", bag_version := "v2" }
        { uuid := "6465da4a", current_path := "dir/x.tar.gz", status := .UPLOADED,
          misc_attributes := [("wellcome.version", "v1")],
          location_relative_path := "born-digital" } ≠
      { uuid := "6465da4a", current_path := "dir/x.tar.gz", status := .UPLOADED,
        misc_attributes := [("wellcome.version", "v1")],
        location_relative_path := "born-digital" } := by
  decide

/-- C1 (amended): `handle_ingest` never consults the current package status,
so a `succeeded` body with fresh contents does rewrite an UPLOADED package;
re-delivery of the *same* terminal ingest result is nevertheless a no-op,
because the `succeeded` updates are value-idempotent (taking the basename
twice equals taking it once, and re-recording the same version is invisible):
applying the same ingest body twice equals applying it once. -/
theorem handle_ingest_idempotent (ingest : IngestBody) (package : Package) :
    handle_ingest ingest (handle_ingest ingest package) = handle_ingest ingest package := by
  unfold handle_ingest
  by_cases hs : ingest.status = "succeeded"
  · simp [hs, basename_idem, dset_idem]
  · by_cases hf : ingest.status = "failed"
    · simp [hs, hf]
    · simp [hs, hf]

theorem endsInOne_of_not_double (s : String)
    (hend : strEndsWith s "-accessions" = true)
    (hdouble : strEndsWith s "-accessions-accessions" = false) :
    endsInOneAccessionsSuffix s = true := by
  have hX : strEndsWith (String.mk (s.toList.take (s.toList.length - 11))) "-accessions"
      = false := by
    unfold strEndsWith at hend hdouble ⊢
    rw [List.isSuffixOf_iff_suffix] at hend
    obtain ⟨u, hu⟩ := hend
    have hA : ("-accessions".toList).length = 11 := by decide
    have hlen : s.toList.length - 11 = u.length := by
      rw [← hu, List.length_append, hA, Nat.add_sub_cancel]
    rw [toList_mk, hlen, ← hu, List.take_left]
    by_contra hcon
    rw [Bool.not_eq_false, List.isSuffixOf_iff_suffix] at hcon
    obtain ⟨w, hw⟩ := hcon
    have hAA : ("-accessions-accessions".toList)
        = "-accessions".toList ++ "-accessions".toList := by decide
    have hw' : w ++ "-accessions".toList = u := hw
    have : ("-accessions-accessions".toList).isSuffixOf s.toList = true := by
      rw [List.isSuffixOf_iff_suffix]
      refine ⟨w, ?_⟩
      rw [hAA, ← List.append_assoc, hw']
      exact hu
    rw [this] at hdouble
    exact Bool.noConfusion hdouble
  unfold endsInOneAccessionsSuffix
  rw [hend, hX]
  rfl

theorem endsInOne_append (s : String)
    (hnot : strEndsWith s "-accessions" = false) :
    endsInOneAccessionsSuffix (s ++ "-accessions") = true := by
  have hend := strEndsWith_append_self s "-accessions"
  have hX : strEndsWith
      (String.mk ((s ++ "-accessions").toList.take
        ((s ++ "-accessions").toList.length - 11))) "-accessions" = false := by
    rw [toList_append]
    have hA : ("-accessions".toList).length = 11 := by decide
    have hlen : (s.toList ++ "-accessions".toList).length - 11 = s.toList.length := by
      rw [List.length_append, hA, Nat.add_sub_cancel]
    rw [hlen, List.take_left, mk_toList]
    exact hnot
  unfold endsInOneAccessionsSuffix
  rw [hend, hX]
  rfl

/-- C10 counterexample: an input space already ending in a doubled
`"-accessions-accessions"` is left unchanged by the tagging, so the resulting
space name does not end in exactly one `"-accessions"` suffix. -/
theorem tag_accessions_double_suffix_counterexample :
    tag_accessions "x-accessions-accessions" = "x-accessions-accessions" ∧
      endsInOneAccessionsSuffix (tag_accessions "x-accessions-accessions") = false := by
  decide

/-- C10 (amended): the tagging appends `"-accessions"` exactly when the input
space does not already end with it, leaves already-suffixed spaces unchanged,
and is idempotent; the result ends in exactly one `"-accessions"` suffix
whenever the input does not itself already end in a doubled
`"-accessions-accessions"` (such an input is returned unchanged, stacked
suffixes included). -/
theorem tag_accessions_characterization :
    (∀ s, strEndsWith s "-accessions" = true → tag_accessions s = s) ∧
    (∀ s, strEndsWith s "-accessions" = false → tag_accessions s = s ++ "-accessions") ∧
    (∀ s, tag_accessions (tag_accessions s) = tag_accessions s) ∧
    (∀ s, strEndsWith s "-accessions-accessions" = false →
      endsInOneAccessionsSuffix (tag_accessions s) = true) := by
  refine ⟨?_, ?_, ?_, ?_⟩
  · intro s h
    simp [tag_accessions, h]
  · intro s h
    simp [tag_accessions, h]
  · intro s
    by_cases h : strEndsWith s "-accessions" = true
    · simp [tag_accessions, h]
    · have h2 := strEndsWith_append_self s "-accessions"
      simp [tag_accessions, h, h2]
  · intro s h2
    by_cases ha : strEndsWith s "-accessions" = true
    · have ht : tag_accessions s = s := by simp [tag_accessions, ha]
      rw [ht]
      exact endsInOne_of_not_double s ha h2
    · have hnot : strEndsWith s "-accessions" = false := by
        cases hb : strEndsWith s "-accessions" with
        | false => rfl
        | true => exact absurd hb ha
      have ht : tag_accessions s = s ++ "-accessions" := by simp [tag_accessions, hnot]
      rw [ht]
      exact endsInOne_append s hnot

/-- C10 witness: concrete instances of the amended characterization at the
spaces `"born-digital"` (no suffix: one is appended, and the result ends in
exactly one suffix) and `"born-digital-accessions"` (already suffixed:
unchanged). -/
theorem tag_accessions_characterization_witness :
    tag_accessions "born-digital" = "born-digital" ++ "-accessions" ∧
    tag_accessions "born-digital-accessions" = "born-digital-accessions" ∧
    endsInOneAccessionsSuffix (tag_accessions "born-digital") = true :=
  ⟨tag_accessions_characterization.2.1 "born-digital" (by decide),
   tag_accessions_characterization.1 "born-digital-accessions" (by decide),
   tag_accessions_characterization.2.2.2 "born-digital" (by decide)⟩

theorem s3_normalize_eq (path : String) (h : lstripSlash path ≠ "") :
    s3_normalize path = rstripSlash (lstripSlash path) ++ "/" := by
  unfold s3_normalize
  simp [h]

/-- C6: the browse prefix is normalized with a trailing separator whenever the
slash-stripped path is non-empty, so a key that extends the path without a
separator (e.g. `requirements.txt` under path `requirements`) is never
matched, while keys under `path/` are; concretely, browsing `"requirements"`
over `{requirements.txt, requirements/a.txt}` lists only `a.txt`. -/
theorem s3_browse_trailing_separator :
    (∀ path : String, lstripSlash path ≠ "" →
      strEndsWith (s3_normalize path) "/" = true) ∧
    (∀ path ext : String, lstripSlash path ≠ "" → ext.toList.head? ≠ some '/' →
      s3_matches path (rstripSlash (lstripSlash path) ++ ext) = false) ∧
    (∀ path rest : String, lstripSlash path ≠ "" →
      s3_matches path (rstripSlash (lstripSlash path) ++ "/" ++ rest) = true) ∧
    s3_browse [⟨"requirements.txt", 3, "t1", "e1"⟩, ⟨"requirements/a.txt", 5, "t2", "e2"⟩]
        "requirements" =
      ⟨[], ["a.txt"], [("a.txt", ⟨5, "t2", "e2"⟩)]⟩ := by
  refine ⟨?_, ?_, ?_, by decide⟩
  · intro path h
    rw [s3_normalize_eq path h]
    exact strEndsWith_append_self _ _
  · intro path ext h hhd
    unfold s3_matches
    rw [s3_normalize_eq path h, toList_append, toList_append]
    by_contra hcon
    rw [Bool.not_eq_false] at hcon
    rw [ List.isPrefixOf_iff_prefix] at hcon
    have h2 : ("/".toList) <+: ext.toList := (List.prefix_append_right_inj _).mp hcon
    obtain ⟨t, ht⟩ := h2
    have : ext.toList.head? = some '/' := by rw [← ht]; rfl
    exact hhd this
  · intro path rest h
    unfold s3_matches
    rw [s3_normalize_eq path h]
    simp only [toList_append]
    rw [ List.isPrefixOf_iff_prefix]
    exact List.prefix_append _ _

/-- C6 witness: the general clauses applied at path `"requirements"` with the
non-separator extension `".txt"` and the separated child `"a.txt"`. -/
theorem s3_browse_trailing_separator_witness :
    s3_matches "requirements" (rstripSlash (lstripSlash "requirements") ++ ".txt") = false ∧
    s3_matches "requirements"
        (rstripSlash (lstripSlash "requirements") ++ "/" ++ "a.txt") = true ∧
    strEndsWith (s3_normalize "requirements") "/" = true :=
  ⟨s3_browse_trailing_separator.2.1 "requirements" ".txt" (by decide) (by decide),
   s3_browse_trailing_separator.2.2.1 "requirements" "a.txt" (by decide),
   s3_browse_trailing_separator.1 "requirements" (by decide)⟩

/-- C7: when the child space lacks an operation (Python `AttributeError`,
modelled as `none`), the dispatcher applies exactly the specified fallbacks:
`browse` and `delete_path` use the local-filesystem implementation, the two
move operations surface a `NotImplementedError`-class failure, and
`update_package_status` returns the pair `(None, message)`. -/
theorem space_dispatch_fallbacks {β δ μ υ : Type} :
    (∀ (browse_local : String → β) (path : String),
      SpaceRec.browse none browse_local path = browse_local path) ∧
    (∀ (self : SpaceRec) (delete_local : String → δ) (target : String),
      strStartsWith target self.path = true →
      self.delete_path none delete_local target = .ok (delete_local target)) ∧
    (∀ (self dest_space : SpaceRec) (src dst : String),
      self.move_to_storage_service (μ := μ) none dest_space src dst =
        .error (.notImplemented (self.protocol_display ++
          " space has not implemented move_to_storage_service"))) ∧
    (∀ (self : SpaceRec) (isdir : Bool) (src dst : String),
      self.move_from_storage_service (μ := μ) none isdir src dst =
        .error (.notImplemented (self.protocol_display ++
          " space has not implemented move_from_storage_service"))) ∧
    (∀ (self : SpaceRec) (package : Package),
      self.update_package_status (υ := υ) none package =
        (none, self.protocol_display ++
          " space has not implemented update_package_status")) := by
  refine ⟨fun _ _ => rfl, ?_, fun _ _ _ _ => rfl, fun _ _ _ _ => rfl, fun _ _ => rfl⟩
  intro self delete_local target h
  simp [SpaceRec.delete_path, h]

/-- C7 witness: concrete fallback instances with all operation results in
`Nat` — local-delete fallback on an in-bounds target, `NotImplementedError`
for the moves, and `(None, message)` for `update_package_status`. -/
theorem space_dispatch_fallbacks_witness :
    SpaceRec.delete_path (δ := Nat) ⟨"/base", "/staging", "FS"⟩ none (fun _ => 7) "/base/x" =
        .ok 7 ∧
    SpaceRec.move_to_storage_service (μ := Nat) ⟨"/base", "/staging", "FS"⟩ none
        ⟨"/b2", "/stage2", "S3"⟩ "src" "dst" =
      .error (.notImplemented "FS space has not implemented move_to_storage_service") ∧
    SpaceRec.update_package_status (υ := Nat) ⟨"/base", "/staging", "FS"⟩ none
        ⟨"u", "p", .STAGING, [], "loc"⟩ =
      (none, "FS space has not implemented update_package_status") :=
  ⟨(space_dispatch_fallbacks (β := Nat) (δ := Nat) (μ := Nat) (υ := Nat)).2.1
      ⟨"/base", "/staging", "FS"⟩ (fun _ => 7) "/base/x" (by decide),
   (space_dispatch_fallbacks (β := Nat) (δ := Nat) (μ := Nat) (υ := Nat)).2.2.1
      ⟨"/base", "/staging", "FS"⟩ ⟨"/b2", "/stage2", "S3"⟩ "src" "dst",
   (space_dispatch_fallbacks (β := Nat) (δ := Nat) (μ := Nat) (υ := Nat)).2.2.2.2
      ⟨"/base", "/staging", "FS"⟩ ⟨"u", "p", .STAGING, [], "loc"⟩⟩

/-- C8: a delete whose target does not start with the owning Space's
configured base path fails with the containment error (the spec's
`PathEscapeError`), and is not delegated to any backend: the result is the
same error for every possible child and local implementation. -/
theorem delete_path_containment {δ : Type} :
    ∀ (self : SpaceRec) (child_delete : Option (String → δ))
      (delete_local : String → δ) (target : String),
      strStartsWith target self.path = false →
      self.delete_path child_delete delete_local target =
        .error (.pathEscape target self.path) := by
  intro self child_delete delete_local target h
  simp [SpaceRec.delete_path, h]

/-- C8 witness: the containment failure at the escaping target
`"/elsewhere/x"` in a Space based at `"/base"`, with a child delete present
(which is nevertheless never consulted). -/
theorem delete_path_containment_witness :
    SpaceRec.delete_path (δ := Nat) ⟨"/base", "/staging", "FS"⟩ (some fun _ => 5)
        (fun _ => 7) "/elsewhere/x" =
      .error (.pathEscape "/elsewhere/x" "/base") :=
  delete_path_containment ⟨"/base", "/staging", "FS"⟩ (some fun _ => 5)
    (fun _ => 7) "/elsewhere/x" (by decide)

/-- C4: evaluating the recompress-and-replace sequence of the bag rewrite at a
failing recompression that left a truncated temporary file: the
`CalledProcessError` is swallowed and the unconditional `os.rename` replaces
the original archive with the truncated file, so the original is not
preserved — contradicting the code's own comment that the temporary path
exists "so if we corrupt something, the original tar.gz is preserved".  (On a
successful recompression the sequence does behave atomically.) -/
theorem recompress_failure_clobbers_original :
    recompress_and_replace ⟨some "ORIGINAL", none⟩ (.failure (some "PARTIAL")) =
        .ok ⟨some "PARTIAL", none⟩ ∧
      recompress_and_replace ⟨some "ORIGINAL", none⟩ (.failure (some "PARTIAL")) ≠
        .ok ⟨some "ORIGINAL", none⟩ ∧
      recompress_and_replace ⟨some "ORIGINAL", none⟩ (.success "FULL") =
        .ok ⟨some "FULL", none⟩ := by
  decide

/-- C3 counterexample: with a source archive that is not a `.tar.gz`, the
resolver raises `NoWellcomeIdentifierFound` instead of returning the package
UUID as a degenerate identifier, and `move_from_storage_service` propagates
the failure without ever reading the file for upload. -/
theorem gwi_no_uuid_fallback_counterexample :
    get_wellcome_identifier "bag.zip" "6465da4a" "born-digital"
        ⟨true, ["bag"], ["WT_1234"], true, true, ["PP/MIA/1"], [], true,
          ⟨some "ORIG", none⟩, .success "FULL"⟩ =
      .error .noWellcomeIdentifierFound ∧
    (move_from_storage_service "bag.zip" "/born-digital/bag.zip"
        ⟨"6465da4a", "bag.zip", .STAGING, [], "/born-digital/"⟩
        ⟨⟨true, ["bag"], ["WT_1234"], true, true, ["PP/MIA/1"], [], true,
          ⟨some "ORIG", none⟩, .success "FULL"⟩, true, none, []⟩).1 =
      .error (.identifierError .noWellcomeIdentifierFound) ∧
    Ev.readSourceForUpload "bag.zip" ∉
      (move_from_storage_service "bag.zip" "/born-digital/bag.zip"
        ⟨"6465da4a", "bag.zip", .STAGING, [], "/born-digital/"⟩
        ⟨⟨true, ["bag"], ["WT_1234"], true, true, ["PP/MIA/1"], [], true,
          ⟨some "ORIG", none⟩, .success "FULL"⟩, true, none, []⟩).2 := by
  decide

/-- C3 (amended): when the source archive is not a recognized compressed bag
(does not end in `.tar.gz`), or the extraction fails, or it does not yield
exactly one top-level directory, `get_wellcome_identifier` raises
`NoWellcomeIdentifierFound` — there is no UUID fallback — and any resolver
failure propagates out of `move_from_storage_service`, whose trace then shows
resolution only: the upload is never reached. -/
theorem gwi_failure_propagates :
    (∀ (src_path package_uuid space : String) (env : GwiEnv),
      (strEndsWith src_path ".tar.gz" = false ∨ env.tar_ok = false ∨
          env.listdir.length ≠ 1) →
      get_wellcome_identifier src_path package_uuid space env =
        .error .noWellcomeIdentifierFound) ∧
    (∀ (src_path dest_path : String) (package : Package) (menv : MoveEnv)
       (e : GwiError),
      get_wellcome_identifier src_path package.uuid
          (stripSlash package.location_relative_path) menv.gwi = .error e →
      (move_from_storage_service src_path dest_path package menv).1 =
          .error (.identifierError e) ∧
        (move_from_storage_service src_path dest_path package menv).2 =
          [.resolveIdentifier src_path]) := by
  constructor
  · intro src_path package_uuid space env h
    unfold get_wellcome_identifier
    by_cases h1 : strEndsWith src_path ".tar.gz" = false
    · simp [h1]
    · rw [if_neg h1]
      by_cases h2 : env.tar_ok = false
      · simp [h2]
      · rw [if_neg h2]
        have h3 : env.listdir.length ≠ 1 := by
          rcases h with h | h | h
          · exact absurd h h1
          · exact absurd h h2
          · exact h
        simp [h3]
  · intro src_path dest_path package menv e hgwi
    constructor <;> simp [move_from_storage_service, hgwi]

/-- C3 witness: the amended clauses applied at a `.zip` archive (clause one)
and at the corresponding full move (clause two). -/
theorem gwi_failure_propagates_witness :
    get_wellcome_identifier "bag.zip" "6465da4a" "born-digital"
        ⟨true, ["bag"], ["WT_1234"], true, true, ["PP/MIA/1"], [], true,
          ⟨some "ORIG", none⟩, .success "FULL"⟩ =
      .error .noWellcomeIdentifierFound ∧
    (move_from_storage_service "bag.zip" "/born-digital/bag.zip"
        ⟨"6465da4a", "bag.zip", .STAGING, [], "/born-digital/"⟩
        ⟨⟨true, ["bag"], ["WT_1234"], true, true, ["PP/MIA/1"], [], true,
          ⟨some "ORIG", none⟩, .success "FULL"⟩, true, none, []⟩).2 =
      [.resolveIdentifier "bag.zip"] :=
  ⟨gwi_failure_propagates.1 "bag.zip" "6465da4a" "born-digital"
      ⟨true, ["bag"], ["WT_1234"], true, true, ["PP/MIA/1"], [], true,
        ⟨some "ORIG", none⟩, .success "FULL"⟩ (Or.inl (by decide)),
   (gwi_failure_propagates.2 "bag.zip" "/born-digital/bag.zip"
      ⟨"6465da4a", "bag.zip", .STAGING, [], "/born-digital/"⟩
      ⟨⟨true, ["bag"], ["WT_1234"], true, true, ["PP/MIA/1"], [], true,
        ⟨some "ORIG", none⟩, .success "FULL"⟩, true, none, []⟩
      .noWellcomeIdentifierFound (by decide)).2⟩

/-- C5: the ingest-type decision — `create` for a self-identifier regardless
of any lookup outcome, `create` on a `BagNotFound` probe for a distinct
identifier, `update` when a prior bag is found; moreover in the full upload
flow a self-identifier never triggers the remote `get_bag` probe. -/
theorem determine_ingest_type_spec :
    (∀ (uuid : String) (lookup : Option BagRecord),
      determine_ingest_type uuid uuid lookup = "create") ∧
    (∀ ext uuid : String, ext ≠ uuid →
      determine_ingest_type ext uuid none = "create") ∧
    (∀ (ext uuid : String) (bag : BagRecord), ext ≠ uuid →
      determine_ingest_type ext uuid (some bag) = "update") ∧
    (∀ (src_path dest_path : String) (package : Package) (env : MoveEnv)
       (wid : WellcomeIdentifier),
      get_wellcome_identifier src_path package.uuid
          (stripSlash package.location_relative_path) env.gwi = .ok wid →
      wid.external_identifier = package.uuid →
      Ev.remoteGetBag ∉ (move_from_storage_service src_path dest_path package env).2) := by
  refine ⟨fun uuid lookup => by simp [determine_ingest_type],
    fun ext uuid h => by simp [determine_ingest_type, h],
    fun ext uuid bag h => by simp [determine_ingest_type, h],
    ?_⟩
  intro src_path dest_path package env wid hg heq
  by_cases hu : env.upload_ok = false
  · simp [move_from_storage_service, hg, hu]
  · simp [move_from_storage_service, hg, hu, heq]

/-- C5 witness: the decision clauses at concrete identifiers, and the
probe-free trace of a concrete upload whose resolved identifier equals the
package UUID. -/
theorem determine_ingest_type_spec_witness :
    determine_ingest_type "6465da4a" "6465da4a" (some ⟨"v1"⟩) = "create" ∧
    determine_ingest_type "PP/MIA" "6465da4a" none = "create" ∧
    determine_ingest_type "PP/MIA" "6465da4a" (some ⟨"v1"⟩) = "update" ∧
    Ev.remoteGetBag ∉
      (move_from_storage_service "bag-6465da4a.tar.gz" "/born-digital/bag.tar.gz"
        ⟨"6465da4a", "bag-6465da4a.tar.gz", .UPLOADED, [], "/born-digital/"⟩
        ⟨⟨true, ["bag"], ["WT"], true, true, ["6465da4a"], [], true,
          ⟨some "O", none⟩, .success "F"⟩, true, none, []⟩).2 :=
  ⟨determine_ingest_type_spec.1 "6465da4a" (some ⟨"v1"⟩),
   determine_ingest_type_spec.2.1 "PP/MIA" "6465da4a" (by decide),
   determine_ingest_type_spec.2.2.1 "PP/MIA" "6465da4a" ⟨"v1"⟩ (by decide),
   determine_ingest_type_spec.2.2.2 "bag-6465da4a.tar.gz" "/born-digital/bag.tar.gz"
     ⟨"6465da4a", "bag-6465da4a.tar.gz", .UPLOADED, [], "/born-digital/"⟩
     ⟨⟨true, ["bag"], ["WT"], true, true, ["6465da4a"], [], true,
       ⟨some "O", none⟩, .success "F"⟩, true, none, []⟩
     ⟨"born-digital", "6465da4a", "6465da4a"⟩ (by decide) (by decide)⟩

/-- C9: identifier resolution always completes before any read of the source
file for upload — the trace of every `move_from_storage_service` run begins
with the completed `resolveIdentifier` step, and the upload read appears
(strictly later) only when resolution succeeded on that same file. -/
theorem upload_after_resolution (src_path dest_path : String) (package : Package)
    (env : MoveEnv) :
    ∃ t : List Ev,
      (move_from_storage_service src_path dest_path package env).2 =
          Ev.resolveIdentifier src_path :: t ∧
        (Ev.readSourceForUpload src_path ∈ t →
          ∃ wid, get_wellcome_identifier src_path package.uuid
              (stripSlash package.location_relative_path) env.gwi = .ok wid) := by
  cases hg : get_wellcome_identifier src_path package.uuid
      (stripSlash package.location_relative_path) env.gwi with
  | error e =>
    refine ⟨[], ?_, ?_⟩
    · simp [move_from_storage_service, hg]
    · intro hmem
      exact absurd hmem (List.not_mem_nil _)
  | ok wid =>
    by_cases hu : env.upload_ok = false
    · refine ⟨[.readSourceForUpload src_path], ?_, fun _ => ⟨wid, rfl⟩⟩
      simp [move_from_storage_service, hg, hu]
    · refine ⟨[.readSourceForUpload src_path, .s3Upload (lstripSlash dest_path)] ++
        (if wid.external_identifier = package.uuid then [] else [.remoteGetBag]) ++
        [.createIngest
          (determine_ingest_type wid.external_identifier package.uuid env.bag_lookup)],
        ?_, fun _ => ⟨wid, rfl⟩⟩
      simp [move_from_storage_service, hg, hu]

/-- C9 witness: the trace shape at a concrete successful run — resolution
first, upload read strictly after. -/
theorem upload_after_resolution_witness :
    ∃ t : List Ev,
      (move_from_storage_service "bag-6465da4a.tar.gz" "/born-digital/bag.tar.gz"
          ⟨"6465da4a", "bag-6465da4a.tar.gz", .STAGING, [], "/born-digital/"⟩
          ⟨⟨true, ["bag"], ["WT"], true, true, ["PP/MIA/1"], [], true,
            ⟨some "O", none⟩, .success "F"⟩, true, none, []⟩).2 =
          Ev.resolveIdentifier "bag-6465da4a.tar.gz" :: t ∧
        (Ev.readSourceForUpload "bag-6465da4a.tar.gz" ∈ t →
          ∃ wid, get_wellcome_identifier "bag-6465da4a.tar.gz"
              (Package.uuid ⟨"6465da4a", "bag-6465da4a.tar.gz", .STAGING, [], "/born-digital/"⟩)
              (stripSlash (Package.location_relative_path
                ⟨"6465da4a", "bag-6465da4a.tar.gz", .STAGING, [], "/born-digital/"⟩))
              (MoveEnv.gwi ⟨⟨true, ["bag"], ["WT"], true, true, ["PP/MIA/1"], [], true,
                ⟨some "O", none⟩, .success "F"⟩, true, none, []⟩) = .ok wid) :=
  upload_after_resolution "bag-6465da4a.tar.gz" "/born-digital/bag.tar.gz"
    ⟨"6465da4a", "bag-6465da4a.tar.gz", .STAGING, [], "/born-digital/"⟩
    ⟨⟨true, ["bag"], ["WT"], true, true, ["PP/MIA/1"], [], true,
      ⟨some "O", none⟩, .success "F"⟩, true, none, []⟩

end StorageSpec
